import Mathlib

/-!
Verification of the NYCU-SDC/summer error-handling and middleware core.

The Go packages `pkg/handler` (error taxonomy), `pkg/database`
(driver-error classifier), `pkg/problem` (RFC-7807 problem builder and
writer), `pkg/cors` and `pkg/trace` (middleware) and `pkg/middleware`
(chain composition) are shallowly embedded below.  Pure functions become
Lean functions; the response sink (`http.ResponseWriter`) becomes an
explicit event-recording state; Go panics become an explicit outcome
value threaded through handler results; Go `nil` errors become `Option`.
-/

namespace Summer

/-- Sentinel error identities (`errors.New` package-level variables) from
`pkg/handler`, `pkg/database`, `pkg/pagination`, plus the external
sentinels `pgx.ErrNoRows` and `context.DeadlineExceeded`.  Go compares
sentinels by identity, so they are modelled as an enumeration. -/
inductive Sentinel where
  | errNotFound
  | errForbidden
  | errCredentialInvalid
  | errUserAlreadyExists
  | errUnauthorized
  | errInternalServer
  | errInvalidUUID
  | errUniqueViolation
  | errForeignKeyViolation
  | errDeadlockDetected
  | errQueryTimeout
  | pgxErrNoRows
  | ctxDeadlineExceeded
  | errInvalidPageOrSize
  | errInvalidSortingField
  deriving DecidableEq, Repr

/-- The message each sentinel was created with (`errors.New("...")`). -/
def sentinelMessage : Sentinel → String
  | .errNotFound => "record not found"
  | .errForbidden => "forbidden"
  | .errCredentialInvalid => "invalid username or password"
  | .errUserAlreadyExists => "user already exists"
  | .errUnauthorized => "unauthorized"
  | .errInternalServer => "internal server error"
  | .errInvalidUUID => "failed to parse UUID"
  | .errUniqueViolation => "unique constraint violation"
  | .errForeignKeyViolation => "foreign key violation"
  | .errDeadlockDetected => "deadlock detected"
  | .errQueryTimeout => "query timed out"
  | .pgxErrNoRows => "no rows in result set"
  | .ctxDeadlineExceeded => "context deadline exceeded"
  | .errInvalidPageOrSize => "invalid page or size"
  | .errInvalidSortingField => "invalid sorting field"

/-- Go error values that flow through this library.
`wrapSentinel s text` is `fmt.Errorf("%w: %v", sentinelErr, cause)`: the
sentinel is in the `Unwrap` chain, the cause is flattened to `text`.
`notFoundError` / `invalidUUIDError` / `validationErrors` /
`internalServerError` are the concrete struct error types
(`handlerutil.NotFoundError`, `handlerutil.InvalidUUIDError`,
`validator.ValidationErrors`, `databaseutil.InternalServerError`);
`pgError` is `*pgconn.PgError`; `basic` is any other plain error. -/
inductive GoError where
  | sentinel (s : Sentinel)
  | wrapSentinel (s : Sentinel) (text : String)
  | notFoundError (table key value message : String)
  | invalidUUIDError (uuid message : String)
  | validationErrors (text : String)
  | pgError (code message : String)
  | internalServerError (source : GoError)
  | basic (message : String)
  deriving DecidableEq, Repr

/-- Model of `errors.Is(err, target)` for a sentinel target.  `wrapSentinel` exposes
its sentinel through `Unwrap`; `NotFoundError.Is` and `InvalidUUIDError.Is`
match `ErrNotFound` resp. `ErrInvalidUUID`; the remaining error shapes have
no `Is` method and no `Unwrap`, so they match no sentinel. -/
def goIs : GoError → Sentinel → Bool
  | .sentinel s, t => s = t
  | .wrapSentinel s _, t => s = t
  | .notFoundError _ _ _ _, t => t = .errNotFound
  | .invalidUUIDError _ _, t => t = .errInvalidUUID
  | .validationErrors _, _ => false
  | .pgError _ _, _ => false
  | .internalServerError _, _ => false
  | .basic _, _ => false

/-- Model of `errors.As(err, &notFoundError)`: succeeds exactly on the
`handlerutil.NotFoundError` struct (nothing in this library wraps it with
`%w`). -/
def goAsNotFoundError : GoError → Option (String × String × String × String)
  | .notFoundError table key value message => some (table, key, value, message)
  | _ => none

/-- Model of `errors.As(err, &validationErrors)` for `validator.ValidationErrors`. -/
def goAsValidationErrors : GoError → Option String
  | .validationErrors text => some text
  | _ => none

/-- Model of `errors.As(err, &pgErr)` for `*pgconn.PgError`; yields the SQLSTATE code. -/
def goAsPgError : GoError → Option String
  | .pgError code _ => some code
  | _ => none

/-- Model of `errors.As(err, &internalDbError)` for `databaseutil.InternalServerError`. -/
def goAsInternalServerError : GoError → Option GoError
  | .internalServerError source => some source
  | _ => none

/-- The `Error()` method of each modelled error value, following the
source of `handlerutil.NotFoundError.Error`, `InvalidUUIDError.Error`,
`databaseutil.InternalServerError.Error` and the `%w: %v` format of the
classifier wrappers. -/
def goErrorText : GoError → String
  | .sentinel s => sentinelMessage s
  | .wrapSentinel s text => sentinelMessage s ++ ": " ++ text
  | .notFoundError table key value message =>
      if message ≠ "" then message
      else if key ≠ "" ∧ value ≠ "" then
        "unable to find " ++ table ++ " with " ++ key ++ " \x27" ++ value ++ "\x27"
      else sentinelMessage .errNotFound
  | .invalidUUIDError uuid message =>
      if message ≠ "" then message
      else if uuid ≠ "" then "failed to parse UUID \x27" ++ uuid ++ "\x27"
      else sentinelMessage .errInvalidUUID
  | .validationErrors text => text
  | .pgError code message => "ERROR: " ++ message ++ " (SQLSTATE " ++ code ++ ")"
  | .internalServerError source => "internal server error: " ++ goErrorText source
  | .basic message => message

/-- Embeds `handlerutil.NewNotFoundError`. -/
def NewNotFoundError (table key value message : String) : GoError :=
  .notFoundError table key value message

/-- RFC-7807 problem object (`problem.Problem`); the Go field `Type` is
called `TypeURI` here because `Type` is reserved in Lean. -/
structure Problem where
  Title : String
  Status : Nat
  TypeURI : String
  Detail : String
  deriving DecidableEq, Repr

/-- The zero `Problem{}` value compared against in `WriteError`. -/
def emptyProblem : Problem := ⟨"", 0, "", ""⟩

/-- Embeds `problem.NewInternalServerProblem`. -/
def NewInternalServerProblem (detail : String) : Problem :=
  ⟨"Internal Server Error", 500,
   "https://developer.mozilla.org/en-US/docs/Web/HTTP/Status/500", detail⟩

/-- Embeds `problem.NewNotFoundProblem`. -/
def NewNotFoundProblem (detail : String) : Problem :=
  ⟨"Not Found", 404,
   "https://developer.mozilla.org/en-US/docs/Web/HTTP/Status/404", detail⟩

/-- Embeds `problem.NewValidateProblem`. -/
def NewValidateProblem (detail : String) : Problem :=
  ⟨"Validation Problem", 400,
   "https://developer.mozilla.org/en-US/docs/Web/HTTP/Status/400", detail⟩

/-- Embeds `problem.NewUnauthorizedProblem`. -/
def NewUnauthorizedProblem (detail : String) : Problem :=
  ⟨"Unauthorized", 401,
   "https://developer.mozilla.org/en-US/docs/Web/HTTP/Status/401", detail⟩

/-- Embeds `problem.NewForbiddenProblem`. -/
def NewForbiddenProblem (detail : String) : Problem :=
  ⟨"Forbidden", 403,
   "https://developer.mozilla.org/en-US/docs/Web/HTTP/Status/403", detail⟩

/-- Embeds `problem.NewBadRequestProblem`. -/
def NewBadRequestProblem (detail : String) : Problem :=
  ⟨"Bad Request", 400,
   "https://developer.mozilla.org/en-US/docs/Web/HTTP/Status/400", detail⟩

/-- The `(title, status, type)` triple of a problem. -/
def problemTriple (p : Problem) : String × Nat × String :=
  (p.Title, p.Status, p.TypeURI)

/-- The problem-selection logic of `HttpWriter.WriteError` (pkg/problem):
first the configured custom mapping, then — if it returned the zero
`Problem{}` — the fixed precedence chain of the `switch`. -/
def writeErrorProblem (problemMapping : GoError → Problem) (err : GoError) : Problem :=
  let problem := problemMapping err
  if problem = emptyProblem then
    match goAsNotFoundError err with
    | some _ => NewNotFoundProblem (goErrorText err)
    | none =>
      match goAsValidationErrors err with
      | some v => NewValidateProblem v
      | none =>
        if goIs err .errUserAlreadyExists then NewValidateProblem "User already exists"
        else if goIs err .errCredentialInvalid then NewUnauthorizedProblem "Invalid username or password"
        else if goIs err .errForbidden then NewForbiddenProblem "Make sure you have the right permissions"
        else if goIs err .errUnauthorized then NewUnauthorizedProblem "You must be logged in to access this resource"
        else if goIs err .errInvalidUUID then NewValidateProblem "Invalid UUID format"
        else if goIs err .errNotFound then NewNotFoundProblem "Resource not found"
        else
          match goAsInternalServerError err with
          | some _ => NewInternalServerProblem "Internal server error"
          | none =>
            if goIs err .errInvalidPageOrSize then NewValidateProblem "Invalid page or size"
            else if goIs err .errInvalidSortingField then NewValidateProblem "Invalid sorting field"
            else NewInternalServerProblem "Internal server error"
  else problem

/-- The mapping installed by `problem.New()`: always the zero `Problem{}`. -/
def defaultProblemMapping : GoError → Problem := fun _ => emptyProblem

/-- The response sink (`http.ResponseWriter`), recording every observable
interaction: header mutations, `WriteHeader` calls and body writes. -/
structure ResponseWriter where
  headers : List (String × String)
  statusWrites : List Nat
  bodyWrites : List String
  deriving DecidableEq, Repr

/-- A sink with nothing written yet. -/
def freshResponseWriter : ResponseWriter := ⟨[], [], []⟩

/-- Model of `w.Header().Set(k, v)`: replace any existing value for the key.  The
header map is kept as an association list normalized so the most recent
binding for a key is first. -/
def headerSet (w : ResponseWriter) (k v : String) : ResponseWriter :=
  { w with headers := (k, v) :: w.headers.filter (fun p => ¬ (p.1 = k)) }

/-- Model of `w.Header().Get(k)`: the current value, `""` when absent. -/
def headerGet (w : ResponseWriter) (k : String) : String :=
  ((w.headers.find? (fun p => p.1 = k)).map Prod.snd).getD ""

/-- Model of `w.WriteHeader(code)` as recorded by the sink. -/
def writeHeader (w : ResponseWriter) (code : Nat) : ResponseWriter :=
  { w with statusWrites := w.statusWrites ++ [code] }

/-- Model of `w.Write(b)` as recorded by the sink. -/
def writeBody (w : ResponseWriter) (b : String) : ResponseWriter :=
  { w with bodyWrites := w.bodyWrites ++ [b] }

/-- Model of `http.Error(w, msg, code)`: plain-text content type, nosniff header,
status, then the message followed by a newline. -/
def httpError (w : ResponseWriter) (msg : String) (code : Nat) : ResponseWriter :=
  writeBody
    (writeHeader
      (headerSet (headerSet w "Content-Type" "text/plain; charset=utf-8")
        "X-Content-Type-Options" "nosniff")
      code)
    (msg ++ "\n")

/-- Model of `json.Marshal` of a `Problem`, with the struct's field order and json
tags (`title`, `status`, `type`, `detail`). -/
def problemToJson (p : Problem) : String :=
  "\x7b\"title\":\"" ++ p.Title ++ "\",\"status\":" ++ toString p.Status ++
    ",\"type\":\"" ++ p.TypeURI ++ "\",\"detail\":\"" ++ p.Detail ++ "\"\x7d"

/-- Embeds `HttpWriter.WriteError` (pkg/problem): no-op on a nil error, otherwise
select the problem, set the problem content type, write its status and
its JSON body.  (Marshalling a `Problem` cannot fail, so the marshal-error
fallback branch is unreachable and not modelled.) -/
def WriteError (problemMapping : GoError → Problem) (w : ResponseWriter)
    (err : Option GoError) : ResponseWriter :=
  match err with
  | none => w
  | some e =>
    let problem := writeErrorProblem problemMapping e
    writeBody
      (writeHeader (headerSet w "Content-Type" "application/problem+json") problem.Status)
      (problemToJson problem)

/-- An HTTP request, reduced to the fields this core inspects: the
`Origin` header (`""` when absent) and the method. -/
structure Request where
  origin : String
  method : String
  deriving DecidableEq, Repr

/-- Model of `http.HandlerFunc`, as a pure transformer of the response sink. -/
def Handler := Request → ResponseWriter → ResponseWriter

/-- A middleware wrapper, `func(next http.HandlerFunc) http.HandlerFunc`. -/
def Middleware := Handler → Handler

/-- The tail of `cors.CORSMiddleware` after an allowed origin: set the
fixed allow-methods / allow-headers pair, then short-circuit `OPTIONS`
with 200 or delegate to `next`. -/
def corsAllowedTail (next : Handler) (r : Request) (w : ResponseWriter) : ResponseWriter :=
  let w1 := headerSet
    (headerSet w "Access-Control-Allow-Methods" "GET, POST, PUT, DELETE, OPTIONS")
    "Access-Control-Allow-Headers" "Content-Type, Authorization"
  if r.method = "OPTIONS" then writeHeader w1 200 else next r w1

/-- Embeds `cors.CORSMiddleware` (pkg/cors/middleware.go): empty origin passes
through; a wildcard entry or exact allow-list member sets the
allow-origin/credentials headers and continues; otherwise 403 via
`http.Error` without invoking `next`. -/
def CORSMiddleware (next : Handler) (allowOrigin : List String) : Handler :=
  fun r w =>
    let origin := r.origin
    if origin = "" then next r w
    else if allowOrigin.contains "*" then
      corsAllowedTail next r
        (headerSet (headerSet w "Access-Control-Allow-Origin" origin)
          "Access-Control-Allow-Credentials" "true")
    else if allowOrigin.contains origin then
      corsAllowedTail next r
        (headerSet (headerSet w "Access-Control-Allow-Origin" origin)
          "Access-Control-Allow-Credentials" "true")
    else
      httpError w "CORS not allowed" 403

/-- The loop body of `Set.HandlerFunc` (pkg/middleware): `next` is rebound
to `middlewares[i](next)` for `i` from the last index down to 0, which
yields `m₀ (m₁ (… (mₙ₋₁ next)))`. -/
def applyMiddlewares : List Middleware → Handler → Handler
  | [], next => next
  | m :: rest, next => m (applyMiddlewares rest next)

/-- Embeds `middleware.Set`, over its ordered wrapper list. -/
structure MiddlewareSet where
  middlewares : List Middleware

/-- Embeds `Set.HandlerFunc`. -/
def MiddlewareSet.HandlerFunc (s : MiddlewareSet) (next : Handler) : Handler :=
  applyMiddlewares s.middlewares next

/-!
`Set.Append` copies the receiver's slice into a freshly allocated slice
before appending, so the receiver's backing array is never written.  To
make that frame property provable rather than vacuous, Go slices are
modelled against an explicit array heap: a slice is an (array id, length)
pair viewing a heap of arrays, and `make` / `copy` / `append` act on the
heap exactly as the Go runtime does (an `append` at full capacity
allocates a fresh array).
-/

/-- The array heap: array id ↦ contents. -/
abbrev Heap (α : Type) := List (List α)

/-- The contents of array `i` (empty for a dangling id). -/
def heapArr (h : Heap α) (i : Nat) : List α := h.getD i []

/-- The elements a slice views. -/
def sliceView (h : Heap α) (s : Nat × Nat) : List α := (heapArr h s.1).take s.2

/-- Model of `make([]T, n)`: allocate a fresh array of `n` default values (length
equals capacity). -/
def heapMake (h : Heap α) (n : Nat) (d : α) : Heap α × (Nat × Nat) :=
  (h ++ [List.replicate n d], (h.length, n))

/-- Overwrite the first `k` slots of `dst` with `src`'s first `k`. -/
def writePrefix (k : Nat) (src dst : List α) : List α :=
  src.take k ++ dst.drop k

/-- Model of `copy(dst, src)`: write `min (len dst) (len src)` elements of `src`
into `dst`'s backing array. -/
def heapCopy (h : Heap α) (dst src : Nat × Nat) : Heap α :=
  h.set dst.1 (writePrefix (min dst.2 src.2) (sliceView h src) (heapArr h dst.1))

/-- Model of `append(s, x)`: write in place when the backing array has spare
capacity, otherwise allocate a fresh array holding the old view plus `x`. -/
def heapAppend (h : Heap α) (s : Nat × Nat) (x : α) : Heap α × (Nat × Nat) :=
  let cap := (heapArr h s.1).length
  if s.2 < cap then
    (h.set s.1 ((heapArr h s.1).set s.2 x), (s.1, s.2 + 1))
  else
    (h ++ [sliceView h s ++ [x]], (h.length, s.2 + 1))

/-- Embeds `Set.Append` (pkg/middleware): `make` a new slice of the receiver's
length, `copy` the receiver into it, then `append` the new wrapper.
Returns the heap after the call and the new set's slice. -/
def SetAppend (h : Heap α) (d : α) (s : Nat × Nat) (m : α) : Heap α × (Nat × Nat) :=
  let made := heapMake h s.2 d
  let h2 := heapCopy made.1 made.2 s
  heapAppend h2 made.2 m

/-- A Go panic payload: `panic(string)` or `panic(error)`. -/
inductive PanicValue where
  | ofString (s : String)
  | ofError (e : GoError)
  deriving DecidableEq, Repr

/-- A handler that may panic: the sink state at exit together with the
panic payload when it did not return normally. -/
def PHandler := Request → ResponseWriter → ResponseWriter × Option PanicValue

/-- Embeds `traceutil.PanicRecoveryError` applied to the result of `recover()`:
whether recovery is needed and the rendered panic message.  (The third Go
result, the caller frame list, is runtime stack introspection with no
influence on control flow and is not modelled.) -/
def PanicRecoveryError : Option PanicValue → Bool × String
  | none => (false, "")
  | some (.ofError e) => (true, goErrorText e)
  | some (.ofString s) => (true, s)

/-- Embeds `traceutil.RecoverMiddleware`: run `next`; the deferred function calls
`recover()` and, when a panic was caught, writes the generic
internal-server Problem for `handlerutil.ErrInternalServer` through a
`problem.New()` writer.  The wrapped handler itself never panics. -/
def RecoverMiddleware (next : PHandler) : PHandler :=
  fun r w =>
    let run := next r w
    let rec' := PanicRecoveryError run.2
    if rec'.1 then
      (WriteError defaultProblemMapping run.1 (some (.sentinel .errInternalServer)), none)
    else
      (run.1, none)

/-- Log severities of the zap logger. -/
inductive LogLevel where
  | debug
  | info
  | warn
  | errorLevel
  deriving DecidableEq, Repr

/-- One structured log line: severity, message, string-rendered fields. -/
structure LogLine where
  level : LogLevel
  message : String
  fields : List (String × String)
  deriving DecidableEq, Repr

/-- SQLSTATE constants of pkg/database. -/
def PGErrUniqueViolation : String := "23505"

/-- SQLSTATE foreign-key-violation constant of pkg/database. -/
def PGErrForeignKeyViolation : String := "23503"

/-- SQLSTATE deadlock constant of pkg/database. -/
def PGErrDeadlockDetected : String := "40P01"

/-- The classifying `switch` of `databaseutil.WrapDBError`: `none` models
the Go `wrappedErr` still being nil after the switch. -/
def dbSwitch (err : GoError) : Option GoError :=
  if goIs err .pgxErrNoRows then
    some (.wrapSentinel .errNotFound (goErrorText err))
  else if goIs err .ctxDeadlineExceeded then
    some (.wrapSentinel .errQueryTimeout (goErrorText err))
  else
    match goAsPgError err with
    | some code =>
      if code = PGErrUniqueViolation then
        some (.wrapSentinel .errUniqueViolation (goErrorText err))
      else if code = PGErrForeignKeyViolation then
        some (.wrapSentinel .errForeignKeyViolation (goErrorText err))
      else if code = PGErrDeadlockDetected then
        some (.wrapSentinel .errDeadlockDetected (goErrorText err))
      else none
    | none => none

/-- The classifying `switch` of `databaseutil.WrapDBErrorWithKeyValue`:
identical except that the no-rows case builds a context-enriched
`NotFoundError` with an empty message. -/
def dbSwitchWithKeyValue (err : GoError) (table key value : String) : Option GoError :=
  if goIs err .pgxErrNoRows then
    some (NewNotFoundError table key value "")
  else if goIs err .ctxDeadlineExceeded then
    some (.wrapSentinel .errQueryTimeout (goErrorText err))
  else
    match goAsPgError err with
    | some code =>
      if code = PGErrUniqueViolation then
        some (.wrapSentinel .errUniqueViolation (goErrorText err))
      else if code = PGErrForeignKeyViolation then
        some (.wrapSentinel .errForeignKeyViolation (goErrorText err))
      else if code = PGErrDeadlockDetected then
        some (.wrapSentinel .errDeadlockDetected (goErrorText err))
      else none
    | none => none

/-- Embeds `databaseutil.WrapDBError` on a non-nil error: returns the wrapped
error and the log lines it emits — first `logger.Error("Failed to "+op)`,
then `logger.Warn("Wrapped database error", ...)` with the operation
label and the unknown-error flag. -/
def WrapDBError (err : GoError) (operation : String) : GoError × List LogLine :=
  let firstLine : LogLine := ⟨.errorLevel, "Failed to " ++ operation, [("error", goErrorText err)]⟩
  let classified :=
    match dbSwitch err with
    | some w => (w, false)
    | none => (GoError.internalServerError err, true)
  let secondLine : LogLine := ⟨.warn, "Wrapped database error",
    [("error", goErrorText classified.1), ("operation", operation),
     ("unknown_error", if classified.2 then "true" else "false")]⟩
  (classified.1, [firstLine, secondLine])

/-- Embeds `databaseutil.WrapDBErrorWithKeyValue` on a non-nil error, with its
table/key/value log fields. -/
def WrapDBErrorWithKeyValue (err : GoError) (table key value : String)
    (operation : String) : GoError × List LogLine :=
  let firstLine : LogLine := ⟨.errorLevel, "Failed to " ++ operation, [("error", goErrorText err)]⟩
  let classified :=
    match dbSwitchWithKeyValue err table key value with
    | some w => (w, false)
    | none => (GoError.internalServerError err, true)
  let secondLine : LogLine := ⟨.warn, "Wrapped database error with key value",
    [("error", goErrorText classified.1), ("table", table), ("key", key),
     ("value", value), ("operation", operation),
     ("unknown_error", if classified.2 then "true" else "false")]⟩
  (classified.1, [firstLine, secondLine])

/-- Substring test (decidable), used to state that an internal error's
text never reaches the serialized response body. -/
def strContains (hay needle : String) : Bool :=
  (List.range (hay.length + 1)).any
    (fun i => (hay.toList.drop i).take needle.length = needle.toList)

theorem heapArr_append_lt {α : Type} (h : Heap α) (l : List α) (i : Nat)
    (hi : i < h.length) : heapArr (h ++ [l]) i = heapArr h i :=
  List.getD_append h [l] [] i hi

theorem heapArr_append_self {α : Type} (h : Heap α) (l : List α) :
    heapArr (h ++ [l]) h.length = l := by
  unfold heapArr
  rw [List.getD_append_right h [l] [] h.length (Nat.le_refl _)]
  simp

theorem set_append_last {α : Type} (l : List α) (a b : α) :
    (l ++ [a]).set l.length b = l ++ [b] := by
  induction l with
  | nil => rfl
  | cons x xs ih =>
    simp [ih]

/-- The `Set.Append` of pkg/middleware, run against the array-heap slice
model: the resulting slice views the old sequence with the new wrapper
appended, and the receiver's slice still views its old, unmodified
sequence in the final heap. -/
theorem setAppend_spec {α : Type} (h : Heap α) (d : α) (s : Nat × Nat) (m : α)
    (hs1 : s.1 < h.length) (hs2 : s.2 ≤ (heapArr h s.1).length) :
    SetAppend h d s m =
      ((h ++ [sliceView h s]) ++ [sliceView h s ++ [m]], (h.length + 1, s.2 + 1)) := by
  have hAlen : (sliceView h s).length = s.2 := by
    simp [sliceView, List.length_take, Nat.min_eq_left hs2]
  have hview1 : sliceView (h ++ [List.replicate s.2 d]) s = sliceView h s := by
    simp [sliceView, heapArr_append_lt h _ s.1 hs1]
  have hcopy : heapCopy (h ++ [List.replicate s.2 d]) (h.length, s.2) s
      = h ++ [sliceView h s] := by
    unfold heapCopy
    simp only [hview1, heapArr_append_self]
    rw [writePrefix, Nat.min_self, List.take_of_length_le (le_of_eq hAlen),
      List.drop_replicate, Nat.sub_self, List.replicate_zero, List.append_nil,
      set_append_last]
  have harr2 : heapArr (h ++ [sliceView h s]) h.length = sliceView h s :=
    heapArr_append_self h _
  have hview2 : sliceView (h ++ [sliceView h s]) (h.length, s.2) = sliceView h s := by
    show (heapArr (h ++ [sliceView h s]) h.length).take s.2 = sliceView h s
    rw [harr2]
    exact List.take_of_length_le (le_of_eq hAlen)
  show heapAppend (heapCopy (h ++ [List.replicate s.2 d]) (h.length, s.2) s)
      (h.length, s.2) m = _
  rw [hcopy]
  unfold heapAppend
  rw [harr2, hAlen]
  simp only [Nat.lt_irrefl, if_false, hview2]
  simp

/-- C9: for every middleware set `s` (a valid slice over the heap) and
wrapper `m`, `Set.Append` returns a new chain whose wrapper sequence is
`s`'s sequence followed by `m`, and in the heap after the call `s`'s own
slice still views its original, unmodified sequence — the receiver is
never mutated, so a base chain can be shared across derived chains. -/
theorem setAppend_extends_and_preserves {α : Type} (h : Heap α) (d : α)
    (s : Nat × Nat) (m : α) (hs1 : s.1 < h.length)
    (hs2 : s.2 ≤ (heapArr h s.1).length) :
    sliceView (SetAppend h d s m).1 (SetAppend h d s m).2 = sliceView h s ++ [m] ∧
    sliceView (SetAppend h d s m).1 s = sliceView h s := by
  have hAlen : (sliceView h s).length = s.2 := by
    simp [sliceView, List.length_take, Nat.min_eq_left hs2]
  rw [setAppend_spec h d s m hs1 hs2]
  constructor
  · show (heapArr ((h ++ [sliceView h s]) ++ [sliceView h s ++ [m]]) (h.length + 1)).take (s.2 + 1) = _
    rw [show h.length + 1 = (h ++ [sliceView h s]).length by simp, heapArr_append_self]
    apply List.take_of_length_le
    simp [hAlen]
  · show (heapArr ((h ++ [sliceView h s]) ++ [sliceView h s ++ [m]]) s.1).take s.2 = _
    rw [heapArr_append_lt _ _ _ (by simp; omega), heapArr_append_lt _ _ _ hs1]
    rfl

theorem setAppend_extends_witness :
    (0 : Nat) < [[1, 2]].length ∧
    sliceView (SetAppend [[(1 : Nat), 2]] 0 (0, 2) 7).1 (SetAppend [[(1 : Nat), 2]] 0 (0, 2) 7).2 = [1, 2, 7] ∧
    sliceView (SetAppend [[(1 : Nat), 2]] 0 (0, 2) 7).1 (0, 2) = [1, 2] := by
  have h := setAppend_extends_and_preserves [[(1 : Nat), 2]] 0 (0, 2) 7 (by decide) (by decide)
  exact ⟨by decide, h.1.trans (by decide), h.2.trans (by decide)⟩

/-- C5: a chain built from wrappers `[A, B, C]` in append order applies
them outer-to-inner: `Set.HandlerFunc` yields the composed handler
`A(B(C(handler)))`, so the first-appended wrapper observes the request
first and the response last. -/
theorem handlerFunc_composes_in_append_order (A B C : Middleware) (hnd : Handler) :
    MiddlewareSet.HandlerFunc ⟨[A, B, C]⟩ hnd = A (B (C hnd)) := rfl

/-- C8: a structured `NotFoundError` built from table `users`, key `id`,
value `abc` and an empty message reports the templated message
`unable to find users with id 'abc'`; a non-empty explicit message is
always reported verbatim; and with no message and no usable key/value
context the kind's generic message `record not found` is reported. -/
theorem notFoundError_message_rules :
    goErrorText (NewNotFoundError "users" "id" "abc" "") =
      "unable to find users with id \x27abc\x27" ∧
    (∀ table key value message, message ≠ "" →
      goErrorText (NewNotFoundError table key value message) = message) ∧
    (∀ table key value, key = "" ∨ value = "" →
      goErrorText (NewNotFoundError table key value "") = "record not found") := by
  refine ⟨by decide, ?_, ?_⟩
  · intro table key value message hmsg
    simp [NewNotFoundError, goErrorText, hmsg]
  · intro table key value hkv
    rcases hkv with hk | hv
    · simp [NewNotFoundError, goErrorText, hk, sentinelMessage]
    · simp [NewNotFoundError, goErrorText, hv, sentinelMessage]

theorem notFoundError_message_rules_witness :
    goErrorText (NewNotFoundError "users" "id" "abc" "") =
      "unable to find users with id \x27abc\x27" ∧
    goErrorText (NewNotFoundError "users" "id" "abc" "custom text") = "custom text" ∧
    goErrorText (NewNotFoundError "users" "" "abc" "") = "record not found" :=
  ⟨notFoundError_message_rules.1,
   notFoundError_message_rules.2.1 "users" "id" "abc" "custom text" (by decide),
   notFoundError_message_rules.2.2 "users" "" "abc" (Or.inl rfl)⟩

/-- C2: with no custom mapping configured (any mapping returning the
empty `Problem{}`, as `problem.New()` installs), the builder maps each
taxonomy kind — sentinel and structured variants alike — to its fixed
`(title, status, type URI)` triple: NotFound → ("Not Found", 404),
Validation / UserAlreadyExists / InvalidUUID → ("Validation Problem",
400), Forbidden → ("Forbidden", 403), Unauthorized / CredentialInvalid →
("Unauthorized", 401), InternalServerError → ("Internal Server Error",
500), each with its per-status MDN type URI. -/
theorem builder_fixed_triples (mapping : GoError → Problem)
    (hm : ∀ e, mapping e = emptyProblem) :
    problemTriple (writeErrorProblem mapping (.sentinel .errNotFound)) =
      ("Not Found", 404, "https://developer.mozilla.org/en-US/docs/Web/HTTP/Status/404") ∧
    (∀ table key value message,
      problemTriple (writeErrorProblem mapping (.notFoundError table key value message)) =
        ("Not Found", 404, "https://developer.mozilla.org/en-US/docs/Web/HTTP/Status/404")) ∧
    (∀ text,
      problemTriple (writeErrorProblem mapping (.validationErrors text)) =
        ("Validation Problem", 400, "https://developer.mozilla.org/en-US/docs/Web/HTTP/Status/400")) ∧
    problemTriple (writeErrorProblem mapping (.sentinel .errUserAlreadyExists)) =
      ("Validation Problem", 400, "https://developer.mozilla.org/en-US/docs/Web/HTTP/Status/400") ∧
    problemTriple (writeErrorProblem mapping (.sentinel .errInvalidUUID)) =
      ("Validation Problem", 400, "https://developer.mozilla.org/en-US/docs/Web/HTTP/Status/400") ∧
    (∀ uuid message,
      problemTriple (writeErrorProblem mapping (.invalidUUIDError uuid message)) =
        ("Validation Problem", 400, "https://developer.mozilla.org/en-US/docs/Web/HTTP/Status/400")) ∧
    problemTriple (writeErrorProblem mapping (.sentinel .errForbidden)) =
      ("Forbidden", 403, "https://developer.mozilla.org/en-US/docs/Web/HTTP/Status/403") ∧
    problemTriple (writeErrorProblem mapping (.sentinel .errUnauthorized)) =
      ("Unauthorized", 401, "https://developer.mozilla.org/en-US/docs/Web/HTTP/Status/401") ∧
    problemTriple (writeErrorProblem mapping (.sentinel .errCredentialInvalid)) =
      ("Unauthorized", 401, "https://developer.mozilla.org/en-US/docs/Web/HTTP/Status/401") ∧
    problemTriple (writeErrorProblem mapping (.sentinel .errInternalServer)) =
      ("Internal Server Error", 500, "https://developer.mozilla.org/en-US/docs/Web/HTTP/Status/500") ∧
    (∀ source,
      problemTriple (writeErrorProblem mapping (.internalServerError source)) =
        ("Internal Server Error", 500, "https://developer.mozilla.org/en-US/docs/Web/HTTP/Status/500")) := by
  refine ⟨?_, ?_, ?_, ?_, ?_, ?_, ?_, ?_, ?_, ?_, ?_⟩ <;>
    intros <;>
    simp [writeErrorProblem, hm, goIs, goAsNotFoundError, goAsValidationErrors,
      goAsInternalServerError, problemTriple, NewNotFoundProblem, NewValidateProblem,
      NewUnauthorizedProblem, NewForbiddenProblem, NewInternalServerProblem]

theorem builder_fixed_triples_witness :
    problemTriple (writeErrorProblem defaultProblemMapping (.sentinel .errNotFound)) =
      ("Not Found", 404, "https://developer.mozilla.org/en-US/docs/Web/HTTP/Status/404") ∧
    problemTriple (writeErrorProblem defaultProblemMapping (.notFoundError "users" "id" "abc" "")) =
      ("Not Found", 404, "https://developer.mozilla.org/en-US/docs/Web/HTTP/Status/404") ∧
    problemTriple (writeErrorProblem defaultProblemMapping (.validationErrors "email: invalid")) =
      ("Validation Problem", 400, "https://developer.mozilla.org/en-US/docs/Web/HTTP/Status/400") ∧
    problemTriple (writeErrorProblem defaultProblemMapping (.sentinel .errUserAlreadyExists)) =
      ("Validation Problem", 400, "https://developer.mozilla.org/en-US/docs/Web/HTTP/Status/400") ∧
    problemTriple (writeErrorProblem defaultProblemMapping (.sentinel .errInvalidUUID)) =
      ("Validation Problem", 400, "https://developer.mozilla.org/en-US/docs/Web/HTTP/Status/400") ∧
    problemTriple (writeErrorProblem defaultProblemMapping (.invalidUUIDError "xyz" "")) =
      ("Validation Problem", 400, "https://developer.mozilla.org/en-US/docs/Web/HTTP/Status/400") ∧
    problemTriple (writeErrorProblem defaultProblemMapping (.sentinel .errForbidden)) =
      ("Forbidden", 403, "https://developer.mozilla.org/en-US/docs/Web/HTTP/Status/403") ∧
    problemTriple (writeErrorProblem defaultProblemMapping (.sentinel .errUnauthorized)) =
      ("Unauthorized", 401, "https://developer.mozilla.org/en-US/docs/Web/HTTP/Status/401") ∧
    problemTriple (writeErrorProblem defaultProblemMapping (.sentinel .errCredentialInvalid)) =
      ("Unauthorized", 401, "https://developer.mozilla.org/en-US/docs/Web/HTTP/Status/401") ∧
    problemTriple (writeErrorProblem defaultProblemMapping (.sentinel .errInternalServer)) =
      ("Internal Server Error", 500, "https://developer.mozilla.org/en-US/docs/Web/HTTP/Status/500") ∧
    problemTriple (writeErrorProblem defaultProblemMapping (.internalServerError (.basic "boom"))) =
      ("Internal Server Error", 500, "https://developer.mozilla.org/en-US/docs/Web/HTTP/Status/500") := by
  have h := builder_fixed_triples defaultProblemMapping (fun _ => rfl)
  exact ⟨h.1, h.2.1 "users" "id" "abc" "", h.2.2.1 "email: invalid", h.2.2.2.1,
    h.2.2.2.2.1, h.2.2.2.2.2.1 "xyz" "", h.2.2.2.2.2.2.1, h.2.2.2.2.2.2.2.1,
    h.2.2.2.2.2.2.2.2.1, h.2.2.2.2.2.2.2.2.2.1, h.2.2.2.2.2.2.2.2.2.2 (.basic "boom")⟩

/-- C3 as stated is false: for the unmatched error `disk full` the
builder's Problem has detail `Internal server error` (capital I), not the
claimed exact phrase `internal server error`. -/
theorem builder_unmatched_detail_counterexample :
    (writeErrorProblem defaultProblemMapping (GoError.basic "disk full")).Detail ≠
      "internal server error" := by decide

set_option maxRecDepth 40000 in
/-- C3 (amended): for every error matching none of the builder's known
kinds, the resulting Problem is the constant internal-server Problem —
title "Internal Server Error", status 500, detail the fixed phrase
"Internal server error" — independent of the error, and for the
`disk full` example the original message appears nowhere in the
serialized response body. -/
theorem builder_unmatched_is_constant_internal (err : GoError)
    (h1 : goAsNotFoundError err = none)
    (h2 : goAsValidationErrors err = none)
    (h3 : goIs err .errUserAlreadyExists = false)
    (h4 : goIs err .errCredentialInvalid = false)
    (h5 : goIs err .errForbidden = false)
    (h6 : goIs err .errUnauthorized = false)
    (h7 : goIs err .errInvalidUUID = false)
    (h8 : goIs err .errNotFound = false)
    (h9 : goAsInternalServerError err = none)
    (h10 : goIs err .errInvalidPageOrSize = false)
    (h11 : goIs err .errInvalidSortingField = false) :
    writeErrorProblem defaultProblemMapping err =
      NewInternalServerProblem "Internal server error" ∧
    (writeErrorProblem defaultProblemMapping err).Title = "Internal Server Error" ∧
    (writeErrorProblem defaultProblemMapping err).Status = 500 ∧
    (writeErrorProblem defaultProblemMapping err).Detail = "Internal server error" ∧
    strContains
      (problemToJson (writeErrorProblem defaultProblemMapping (GoError.basic "disk full")))
      "disk full" = false := by
  have hp : writeErrorProblem defaultProblemMapping err =
      NewInternalServerProblem "Internal server error" := by
    simp [writeErrorProblem, defaultProblemMapping, h1, h2, h3, h4, h5, h6, h7,
      h8, h9, h10, h11]
  exact ⟨hp, by rw [hp]; rfl, by rw [hp]; rfl, by rw [hp]; rfl, by decide⟩

set_option maxRecDepth 40000 in
theorem builder_unmatched_is_constant_internal_witness :
    writeErrorProblem defaultProblemMapping (GoError.basic "disk full") =
      NewInternalServerProblem "Internal server error" ∧
    (writeErrorProblem defaultProblemMapping (GoError.basic "disk full")).Status = 500 ∧
    strContains
      (problemToJson (writeErrorProblem defaultProblemMapping (GoError.basic "disk full")))
      "disk full" = false := by
  have h := builder_unmatched_is_constant_internal (GoError.basic "disk full")
    rfl rfl rfl rfl rfl rfl rfl rfl rfl rfl rfl
  exact ⟨h.1, h.2.2.1, h.2.2.2.2⟩

/-- C6: for every request whose Origin header is non-empty and neither
matched by a wildcard entry nor an exact member of the allow-list, the
CORS middleware short-circuits with `http.Error(w, "CORS not allowed",
403)`; the result is independent of the downstream handler, which is
therefore never invoked, and 403 is written to the sink. -/
theorem cors_disallowed_origin_403 (next : Handler) (allowOrigin : List String)
    (r : Request) (w : ResponseWriter) (h0 : r.origin ≠ "")
    (h1 : "*" ∉ allowOrigin)
    (h2 : r.origin ∉ allowOrigin) :
    CORSMiddleware next allowOrigin r w = httpError w "CORS not allowed" 403 ∧
    (∀ next', CORSMiddleware next allowOrigin r w = CORSMiddleware next' allowOrigin r w) ∧
    403 ∈ (CORSMiddleware next allowOrigin r w).statusWrites := by
  have he : CORSMiddleware next allowOrigin r w = httpError w "CORS not allowed" 403 := by
    simp [CORSMiddleware, h0, h1, h2]
  refine ⟨he, ?_, ?_⟩
  · intro next'
    rw [he]
    simp [CORSMiddleware, h0, h1, h2]
  · rw [he]
    simp [httpError, writeHeader, writeBody, headerSet]

theorem cors_disallowed_origin_403_witness :
    CORSMiddleware (fun _ w => w) ["http://good.example"]
        ⟨"http://evil.example", "GET"⟩ freshResponseWriter =
      httpError freshResponseWriter "CORS not allowed" 403 ∧
    403 ∈ (CORSMiddleware (fun _ w => w) ["http://good.example"]
        ⟨"http://evil.example", "GET"⟩ freshResponseWriter).statusWrites := by
  have h := cors_disallowed_origin_403 (fun _ w => w) ["http://good.example"]
    ⟨"http://evil.example", "GET"⟩ freshResponseWriter (by decide) (by decide) (by decide)
  exact ⟨h.1, h.2.2⟩

/-- C7 as stated is false: a request with no Origin header passes through
the CORS middleware untouched, so the response of an identity downstream
handler carries no `Access-Control-Allow-Methods` header at all. -/
theorem cors_headers_counterexample :
    headerGet
        (CORSMiddleware (fun _ w => w) ["http://good.example"] ⟨"", "GET"⟩ freshResponseWriter)
        "Access-Control-Allow-Methods" ≠ "GET, POST, PUT, DELETE, OPTIONS" := by
  decide

/-- C7 (amended): for every request whose Origin is non-empty and matched
by the allow-list (wildcard or exact member), the middleware sets
`Access-Control-Allow-Methods: GET, POST, PUT, DELETE, OPTIONS` and
`Access-Control-Allow-Headers: Content-Type, Authorization` on the sink
state it then completes with: on `OPTIONS` it writes 200 over that state,
otherwise it hands that state to the downstream handler.  Requests with
an absent Origin or an unmatched Origin do not receive these headers. -/
theorem cors_allowed_fixed_headers (next : Handler) (allowOrigin : List String)
    (r : Request) (w : ResponseWriter) (h0 : r.origin ≠ "")
    (h1 : "*" ∈ allowOrigin ∨ r.origin ∈ allowOrigin) :
    ∃ w', headerGet w' "Access-Control-Allow-Methods" = "GET, POST, PUT, DELETE, OPTIONS" ∧
      headerGet w' "Access-Control-Allow-Headers" = "Content-Type, Authorization" ∧
      CORSMiddleware next allowOrigin r w =
        (if r.method = "OPTIONS" then writeHeader w' 200 else next r w') := by
  refine ⟨headerSet
      (headerSet
        (headerSet (headerSet w "Access-Control-Allow-Origin" r.origin)
          "Access-Control-Allow-Credentials" "true")
        "Access-Control-Allow-Methods" "GET, POST, PUT, DELETE, OPTIONS")
      "Access-Control-Allow-Headers" "Content-Type, Authorization", ?_, ?_, ?_⟩
  · simp [headerGet, headerSet, List.find?]
  · simp [headerGet, headerSet, List.find?]
  · rcases h1 with h1 | h1 <;>
      simp [CORSMiddleware, corsAllowedTail, h0, h1]

theorem cors_allowed_fixed_headers_witness :
    ∃ w', headerGet w' "Access-Control-Allow-Methods" = "GET, POST, PUT, DELETE, OPTIONS" ∧
      headerGet w' "Access-Control-Allow-Headers" = "Content-Type, Authorization" ∧
      CORSMiddleware (fun _ w => w) ["http://good.example"]
          ⟨"http://good.example", "OPTIONS"⟩ freshResponseWriter =
        (if ("OPTIONS" : String) = "OPTIONS" then writeHeader w' 200
         else (fun (_ : Request) (w : ResponseWriter) => w)
           ⟨"http://good.example", "OPTIONS"⟩ w') :=
  cors_allowed_fixed_headers (fun _ w => w) ["http://good.example"]
    ⟨"http://good.example", "OPTIONS"⟩ freshResponseWriter (by decide) (Or.inr (by decide))

/-- C4: for every downstream handler wrapped by `RecoverMiddleware`, the
wrapped handler returns normally — a panic never propagates past the
middleware — and whenever the downstream handler panicked (with a string
or with an error payload alike), the response sink receives the
internal-server Problem: a 500 status write and the serialized
"Internal Server Error" Problem body. -/
theorem recoverMiddleware_contains_panics (next : PHandler) (r : Request)
    (w : ResponseWriter) :
    (RecoverMiddleware next r w).2 = none ∧
    (∀ v, (next r w).2 = some v →
      500 ∈ (RecoverMiddleware next r w).1.statusWrites ∧
      problemToJson (NewInternalServerProblem "Internal server error") ∈
        (RecoverMiddleware next r w).1.bodyWrites) := by
  constructor
  · cases hp : (next r w).2 with
    | none => simp [RecoverMiddleware, PanicRecoveryError, hp]
    | some v => cases v <;> simp [RecoverMiddleware, PanicRecoveryError, hp]
  · intro v hv
    cases v <;>
      simp [RecoverMiddleware, PanicRecoveryError, hv, WriteError, writeErrorProblem,
        defaultProblemMapping, goIs, goAsNotFoundError, goAsValidationErrors,
        goAsInternalServerError, writeBody, writeHeader, headerSet,
        NewInternalServerProblem, emptyProblem]

theorem recoverMiddleware_contains_panics_witness :
    (RecoverMiddleware (fun _ w => (w, some (PanicValue.ofString "boom")))
        ⟨"", "GET"⟩ freshResponseWriter).2 = none ∧
    500 ∈ (RecoverMiddleware (fun _ w => (w, some (PanicValue.ofString "boom")))
        ⟨"", "GET"⟩ freshResponseWriter).1.statusWrites ∧
    (RecoverMiddleware (fun _ w => (w, some (PanicValue.ofError (.basic "kaput"))))
        ⟨"", "GET"⟩ freshResponseWriter).2 = none := by
  have h1 := recoverMiddleware_contains_panics
    (fun _ w => (w, some (PanicValue.ofString "boom"))) ⟨"", "GET"⟩ freshResponseWriter
  have h2 := recoverMiddleware_contains_panics
    (fun _ w => (w, some (PanicValue.ofError (.basic "kaput")))) ⟨"", "GET"⟩ freshResponseWriter
  exact ⟨h1.1, (h1.2 (PanicValue.ofString "boom") rfl).1, h2.1⟩

/-- C1: the database classifier resolves a non-nil error by precedence —
the driver's no-rows sentinel gives a taxonomy NotFound error (in both
the plain and the key/value variant), then deadline-exceeded gives
QueryTimeout, then the driver's structured code `23505` / `23503` /
`40P01` gives UniqueViolation / ForeignKeyViolation / DeadlockDetected,
and otherwise the result is an `InternalServerError` value wrapping the
original cause, for which the problem builder emits the constant
internal-server Problem, so the original error text stays off the wire. -/
theorem wrapDBError_classification (err : GoError) (operation table key value : String) :
    (goIs err .pgxErrNoRows = true →
      goIs (WrapDBError err operation).1 .errNotFound = true ∧
      goIs (WrapDBErrorWithKeyValue err table key value operation).1 .errNotFound = true) ∧
    (goIs err .pgxErrNoRows = false → goIs err .ctxDeadlineExceeded = true →
      goIs (WrapDBError err operation).1 .errQueryTimeout = true ∧
      goIs (WrapDBErrorWithKeyValue err table key value operation).1 .errQueryTimeout = true) ∧
    (goIs err .pgxErrNoRows = false → goIs err .ctxDeadlineExceeded = false →
      goAsPgError err = some PGErrUniqueViolation →
      goIs (WrapDBError err operation).1 .errUniqueViolation = true ∧
      goIs (WrapDBErrorWithKeyValue err table key value operation).1 .errUniqueViolation = true) ∧
    (goIs err .pgxErrNoRows = false → goIs err .ctxDeadlineExceeded = false →
      goAsPgError err = some PGErrForeignKeyViolation →
      goIs (WrapDBError err operation).1 .errForeignKeyViolation = true ∧
      goIs (WrapDBErrorWithKeyValue err table key value operation).1 .errForeignKeyViolation = true) ∧
    (goIs err .pgxErrNoRows = false → goIs err .ctxDeadlineExceeded = false →
      goAsPgError err = some PGErrDeadlockDetected →
      goIs (WrapDBError err operation).1 .errDeadlockDetected = true ∧
      goIs (WrapDBErrorWithKeyValue err table key value operation).1 .errDeadlockDetected = true) ∧
    (goIs err .pgxErrNoRows = false → goIs err .ctxDeadlineExceeded = false →
      (∀ c, goAsPgError err = some c →
        c ≠ PGErrUniqueViolation ∧ c ≠ PGErrForeignKeyViolation ∧ c ≠ PGErrDeadlockDetected) →
      (WrapDBError err operation).1 = GoError.internalServerError err ∧
      (WrapDBErrorWithKeyValue err table key value operation).1 = GoError.internalServerError err ∧
      writeErrorProblem defaultProblemMapping (WrapDBError err operation).1 =
        NewInternalServerProblem "Internal server error") := by
  refine ⟨?_, ?_, ?_, ?_, ?_, ?_⟩
  · intro h
    have d1 : dbSwitch err = some (.wrapSentinel .errNotFound (goErrorText err)) := by
      rw [dbSwitch]
      simp [h]
    have d2 : dbSwitchWithKeyValue err table key value =
        some (NewNotFoundError table key value "") := by
      rw [dbSwitchWithKeyValue]
      simp [h]
    constructor
    · simp [WrapDBError, d1, goIs]
    · simp [WrapDBErrorWithKeyValue, d2, NewNotFoundError, goIs]
  · intro h h2
    have d1 : dbSwitch err = some (.wrapSentinel .errQueryTimeout (goErrorText err)) := by
      rw [dbSwitch]
      simp [h, h2]
    have d2 : dbSwitchWithKeyValue err table key value =
        some (.wrapSentinel .errQueryTimeout (goErrorText err)) := by
      rw [dbSwitchWithKeyValue]
      simp [h, h2]
    constructor
    · simp [WrapDBError, d1, goIs]
    · simp [WrapDBErrorWithKeyValue, d2, goIs]
  · intro h h2 h3
    have d1 : dbSwitch err = some (.wrapSentinel .errUniqueViolation (goErrorText err)) := by
      rw [dbSwitch]
      simp [h, h2, h3]
    have d2 : dbSwitchWithKeyValue err table key value =
        some (.wrapSentinel .errUniqueViolation (goErrorText err)) := by
      rw [dbSwitchWithKeyValue]
      simp [h, h2, h3]
    constructor
    · simp [WrapDBError, d1, goIs]
    · simp [WrapDBErrorWithKeyValue, d2, goIs]
  · intro h h2 h3
    have d1 : dbSwitch err = some (.wrapSentinel .errForeignKeyViolation (goErrorText err)) := by
      rw [dbSwitch]
      simp [h, h2, h3, PGErrUniqueViolation, PGErrForeignKeyViolation]
    have d2 : dbSwitchWithKeyValue err table key value =
        some (.wrapSentinel .errForeignKeyViolation (goErrorText err)) := by
      rw [dbSwitchWithKeyValue]
      simp [h, h2, h3, PGErrUniqueViolation, PGErrForeignKeyViolation]
    constructor
    · simp [WrapDBError, d1, goIs]
    · simp [WrapDBErrorWithKeyValue, d2, goIs]
  · intro h h2 h3
    have d1 : dbSwitch err = some (.wrapSentinel .errDeadlockDetected (goErrorText err)) := by
      rw [dbSwitch]
      simp [h, h2, h3, PGErrUniqueViolation, PGErrForeignKeyViolation,
        PGErrDeadlockDetected]
    have d2 : dbSwitchWithKeyValue err table key value =
        some (.wrapSentinel .errDeadlockDetected (goErrorText err)) := by
      rw [dbSwitchWithKeyValue]
      simp [h, h2, h3, PGErrUniqueViolation, PGErrForeignKeyViolation,
        PGErrDeadlockDetected]
    constructor
    · simp [WrapDBError, d1, goIs]
    · simp [WrapDBErrorWithKeyValue, d2, goIs]
  · intro h h2 h3
    have hsw : dbSwitch err = none := by
      rw [dbSwitch]
      simp only [h, h2, Bool.false_eq_true, if_false]
      cases hc : goAsPgError err with
      | none => rfl
      | some c =>
        obtain ⟨n1, n2, n3⟩ := h3 c hc
        simp [n1, n2, n3]
    have hswkv : dbSwitchWithKeyValue err table key value = none := by
      rw [dbSwitchWithKeyValue]
      simp only [h, h2, Bool.false_eq_true, if_false]
      cases hc : goAsPgError err with
      | none => rfl
      | some c =>
        obtain ⟨n1, n2, n3⟩ := h3 c hc
        simp [n1, n2, n3]
    refine ⟨by simp [WrapDBError, hsw], by simp [WrapDBErrorWithKeyValue, hswkv], ?_⟩
    simp [WrapDBError, hsw, writeErrorProblem, defaultProblemMapping,
      goAsNotFoundError, goAsValidationErrors, goAsInternalServerError, goIs]

theorem wrapDBError_classification_witness :
    goIs (WrapDBError (.sentinel .pgxErrNoRows) "GetUser").1 .errNotFound = true ∧
    goIs (WrapDBErrorWithKeyValue (.sentinel .pgxErrNoRows) "users" "id" "abc" "GetUser").1
      .errNotFound = true ∧
    goIs (WrapDBError (.sentinel .ctxDeadlineExceeded) "GetUser").1 .errQueryTimeout = true ∧
    goIs (WrapDBError (.pgError "23505" "duplicate key") "CreateUser").1
      .errUniqueViolation = true ∧
    goIs (WrapDBError (.pgError "23503" "fk") "CreateUser").1 .errForeignKeyViolation = true ∧
    goIs (WrapDBError (.pgError "40P01" "deadlock") "CreateUser").1 .errDeadlockDetected = true ∧
    (WrapDBError (.basic "disk full") "GetUser").1 =
      GoError.internalServerError (.basic "disk full") ∧
    writeErrorProblem defaultProblemMapping (WrapDBError (.basic "disk full") "GetUser").1 =
      NewInternalServerProblem "Internal server error" := by
  have hnr := (wrapDBError_classification (.sentinel .pgxErrNoRows) "GetUser" "users" "id" "abc").1 rfl
  have hdl := (wrapDBError_classification (.sentinel .ctxDeadlineExceeded) "GetUser" "t" "k" "v").2.1 rfl rfl
  have huv := (wrapDBError_classification (.pgError "23505" "duplicate key") "CreateUser" "t" "k" "v").2.2.1 rfl rfl rfl
  have hfk := (wrapDBError_classification (.pgError "23503" "fk") "CreateUser" "t" "k" "v").2.2.2.1 rfl rfl rfl
  have hdd := (wrapDBError_classification (.pgError "40P01" "deadlock") "CreateUser" "t" "k" "v").2.2.2.2.1 rfl rfl rfl
  have hun := (wrapDBError_classification (.basic "disk full") "GetUser" "t" "k" "v").2.2.2.2.2 rfl rfl
    (by intro c hc; cases hc)
  exact ⟨hnr.1, hnr.2, hdl.1, huv.1, hfk.1, hdd.1, hun.1, hun.2.2⟩

/-- C10 as stated is false: a call to the classifier with a non-nil error
emits two log lines, not exactly one — `logger.Error("Failed to "+op)` is
always emitted before the `logger.Warn("Wrapped database error")` line. -/
theorem wrapDBError_log_count_counterexample :
    (WrapDBError (GoError.basic "disk full") "GetUser").2.length ≠ 1 := by decide

/-- C10 (amended): every call to the database classifier with a non-nil
error emits exactly two structured log lines, fully determined: first an
Error-severity line `Failed to <operation>` carrying the original error,
then a Warn-severity line carrying the wrapped error, the operation
label, the lookup table/key/value in the key/value variant, and an
`unknown_error` flag that is true exactly when the error was not
classified. -/
theorem wrapDBError_logging (err : GoError) (operation table key value : String) :
    (WrapDBError err operation).2 =
      [⟨.errorLevel, "Failed to " ++ operation, [("error", goErrorText err)]⟩,
       ⟨.warn, "Wrapped database error",
         [("error", goErrorText (WrapDBError err operation).1),
          ("operation", operation),
          ("unknown_error", if dbSwitch err = none then "true" else "false")]⟩] ∧
    (WrapDBErrorWithKeyValue err table key value operation).2 =
      [⟨.errorLevel, "Failed to " ++ operation, [("error", goErrorText err)]⟩,
       ⟨.warn, "Wrapped database error with key value",
         [("error", goErrorText (WrapDBErrorWithKeyValue err table key value operation).1),
          ("table", table), ("key", key), ("value", value),
          ("operation", operation),
          ("unknown_error",
            if dbSwitchWithKeyValue err table key value = none then "true" else "false")]⟩] ∧
    (WrapDBError err operation).2.length = 2 ∧
    (WrapDBErrorWithKeyValue err table key value operation).2.length = 2 := by
  refine ⟨?_, ?_, ?_, ?_⟩
  · cases hsw : dbSwitch err <;> simp [WrapDBError, hsw]
  · cases hsw : dbSwitchWithKeyValue err table key value <;>
      simp [WrapDBErrorWithKeyValue, hsw]
  · cases hsw : dbSwitch err <;> simp [WrapDBError, hsw]
  · cases hsw : dbSwitchWithKeyValue err table key value <;>
      simp [WrapDBErrorWithKeyValue, hsw]

end Summer
